import Mathlib

/-!
Verification of the browser-automation orchestration in
`src/examples/basic_scraping_ops.rs` (a chromiumoxide-based scraper example)
against its natural-language design specification.

The example program is embedded shallowly:
* each example function (`wikipedia_search`, `take_screenshot`,
  `extract_books`) becomes a concrete trace of page operations, and the
  per-page navigation/readiness bookkeeping becomes a small state machine;
* the effectful parts of `take_screenshot` and `main` become explicit
  state-passing functions over an abstract environment supplying the
  outcome of each fallible step;
* the engine-level contracts of the spec (navigation timeout, retrying
  selector resolution, focus-before-type, error classification in evaluate,
  session close) whose implementation lives in the external client library
  rather than under `src/` are modelled from the spec, each clearly marked.
-/

namespace Scraper

/-! ## Page operation traces

Each suspending call the example script performs on a page is one `Act`.
The order and arguments are transcribed from
`src/examples/basic_scraping_ops.rs`. -/

/-- One operation issued against a page, as performed by the example
script: page creation (which issues the initial navigation), waiting for
navigation, element lookup, click, sleeping, typing, script evaluation,
screenshot capture, and writing the captured bytes to a file. -/
inductive Act where
  | newPage (url : String)
  | waitForNavigation
  | findElement (selector : String)
  | click (selector : String)
  | sleep (ms : Nat)
  | typeStr (selector : String) (text : String)
  | evaluate (script : String)
  | screenshot
  | writeFile (name : String)
deriving DecidableEq, Repr

/-- The script passed to `page.evaluate` in `wikipedia_search` (lines
90-92 of the source): it submits the search form directly. -/
def submitScript : String :=
  "document.querySelector(\x27input[name=\"search\"]\x27).form.submit();"

/-- The script passed to `page.evaluate` in `extract_books` (lines
133-136 of the source): it collects the `title` attributes of all
`.product_pod h3 a` elements in document order. -/
def booksScript : String :=
  "Array.from(document.querySelectorAll(\x27.product_pod h3 a\x27)).map(element => element.getAttribute(\x27title\x27))"

/-- Does `pat` occur at the start of `cs`? -/
def beginsWith : List Char → List Char → Bool
  | [], _ => true
  | _ :: _, [] => false
  | p :: ps, c :: cs => p == c && beginsWith ps cs

/-- Does `pat` occur anywhere in the character list? -/
def hasSub (pat : List Char) : List Char → Bool
  | [] => beginsWith pat []
  | c :: cs => beginsWith pat (c :: cs) || hasSub pat cs

/-- A script triggers a navigation exactly when it invokes
`form.submit()`; detected as a substring of the script source. -/
def navTriggering (script : String) : Bool :=
  hasSub "form.submit()".data script.data

/-- Does this `Act` interact with, extract from, or capture the page?
(`findElement`, `click`, `typeStr`, `evaluate`, `screenshot`.) -/
def Act.interacts : Act → Bool
  | .findElement _ => true
  | .click _ => true
  | .typeStr _ _ => true
  | .evaluate _ => true
  | .screenshot => true
  | _ => false

/-- Per-page navigation bookkeeping: `navEpoch` counts navigations issued
against the page (page creation counts as the first), and `readyEpoch` is
the largest epoch for which a `wait_for_navigation` has completed.  The
page has reached ready state since its most recent navigation exactly when
`readyEpoch = navEpoch`. -/
structure PageState where
  navEpoch : Nat
  readyEpoch : Nat
deriving DecidableEq, Repr

/-- The page state before any operation. -/
def PageState.init : PageState := ⟨0, 0⟩

/-- How one operation updates the navigation bookkeeping of the page:
`newPage` issues a navigation, `waitForNavigation` completes the wait for
the latest navigation, and evaluating a navigation-triggering script
(the form submit) issues a new navigation after running. -/
def step (st : PageState) : Act → PageState
  | .newPage _ => ⟨st.navEpoch + 1, st.readyEpoch⟩
  | .waitForNavigation => ⟨st.navEpoch, st.navEpoch⟩
  | .evaluate s =>
      if navTriggering s then ⟨st.navEpoch + 1, st.readyEpoch⟩ else st
  | _ => st

/-- Run a whole trace from a starting page state. -/
def runTrace (st : PageState) (tr : List Act) : PageState :=
  tr.foldl step st

/-- Check that every interaction/extraction/capture operation in the trace
is issued only when the page has reached ready state since its most recent
navigation (`readyEpoch = navEpoch` at the point of issue). -/
def checkReady (st : PageState) : List Act → Bool
  | [] => true
  | a :: rest =>
      (!a.interacts || (st.readyEpoch == st.navEpoch)) &&
      checkReady (step st a) rest

/-- The trace of page operations performed by `wikipedia_search`
(source lines 63-102), in issuance order. -/
def wikipediaTrace (searchTerm : String) : List Act :=
  [ .newPage "https://en.wikipedia.org",
    .waitForNavigation,
    .findElement "#p-search > a",
    .click "#p-search > a",
    .sleep 500,
    .findElement "input[name=\x27search\x27]",
    .click "input[name=\x27search\x27]",
    .sleep 100,
    .typeStr "input[name=\x27search\x27]" searchTerm,
    .evaluate submitScript,
    .waitForNavigation,
    .evaluate "document.title" ]

/-- The trace of page operations performed by `take_screenshot`
(source lines 105-122), in issuance order. -/
def screenshotTrace (url filename : String) : List Act :=
  [ .newPage url,
    .waitForNavigation,
    .sleep 1000,
    .screenshot,
    .writeFile filename ]

/-- The trace of page operations performed by `extract_books`
(source lines 125-142), in issuance order. -/
def extractBooksTrace : List Act :=
  [ .newPage "https://books.toscrape.com/catalogue/category/books/science_22/index.html",
    .waitForNavigation,
    .evaluate booksScript ]

/-! ## Error taxonomy (spec section 7)

Every public operation fails with one of these classified kinds; there is
no generic/opaque failure constructor. -/

/-- The classified error kinds of the public contract of the engine. -/
inductive OpError where
  | connection
  | pageCreation
  | navigationTimeout
  | elementNotFound
  | staleElement
  | focusRequired
  | scriptFault
  | decodeFault
  | capture
  | io
  | pageClosed
  | sessionClosed
deriving DecidableEq, Repr

/-! ## Navigation Controller -/

/-- Modelled from the spec: the wait step of `navigate(page, url, timeout)`
is implemented by the external client library, not under `src/`.  The
asynchronous event stream is abstracted as the list of arrival times of
navigation-complete signals; the wait suspends until the first signal that
arrives no later than `timeout`, and if none arrives within `timeout` it
fails with `NavigationTimeout` instead of blocking (the function is total). -/
def waitCompleteWithin (signals : List Nat) (timeout : Nat) : Except OpError Nat :=
  match signals.filter (fun t => decide (t ≤ timeout)) with
  | [] => Except.error OpError.navigationTimeout
  | t :: _ => Except.ok t

/-- Modelled from the spec: `navigate` issues the navigation command (which
resets readiness: the new epoch is not yet waited for) and then waits for a
navigation-complete signal within `timeout`; on timeout it returns the
error and leaves the page in the navigating (not ready) state. -/
def navigate (st : PageState) (signals : List Nat) (timeout : Nat) :
    Except OpError Unit × PageState :=
  let issued : PageState := ⟨st.navEpoch + 1, st.readyEpoch⟩
  match waitCompleteWithin signals timeout with
  | Except.error e => (Except.error e, issued)
  | Except.ok _ => (Except.ok (), ⟨issued.navEpoch, issued.navEpoch⟩)

/-! ## Element Interaction Engine -/

/-- The retry policy of `findElement` (spec section 4.3). -/
structure RetryPolicy where
  maxAttempts : Nat
  backoffMs : Nat
deriving DecidableEq, Repr

/-- Modelled from the spec: the retry loop of
`findElement(page, selector, retry_policy)` is implemented by the external
client library, not under `src/`.  `resolve i` is the outcome of the `i`-th
selector-resolution attempt against the settling DOM; the loop makes up to
`fuel` attempts starting at attempt `i`, sleeping `backoff` milliseconds
after each unsuccessful attempt, and accumulates the total backoff slept
in the second component. -/
def findElementFrom {H : Type} (resolve : Nat → Option H) (backoff : Nat) :
    Nat → Nat → Nat → Except OpError H × Nat
  | 0, _, elapsed => (Except.error OpError.elementNotFound, elapsed)
  | n + 1, i, elapsed =>
      match resolve i with
      | some h => (Except.ok h, elapsed)
      | none => findElementFrom resolve backoff n (i + 1) (elapsed + backoff)

/-- Modelled from the spec: `findElement` retries selector resolution up to
`policy.maxAttempts` times with a backoff delay between attempts before
failing with `ElementNotFound`. -/
def findElement {H : Type} (resolve : Nat → Option H) (policy : RetryPolicy) :
    Except OpError H × Nat :=
  findElementFrom resolve policy.backoffMs policy.maxAttempts 0 0

/-- The focus/value state of an input element within one logical step. -/
structure InputState where
  focused : Option String
  value : String
deriving DecidableEq, Repr

/-- Modelled from the spec: a click on a handle is an explicit focus
action on it. -/
def clickFocus (st : InputState) (sel : String) : InputState :=
  ⟨some sel, st.value⟩

/-- Modelled from the spec: the `type` interaction is implemented by the
external client library, not under `src/`.  Typing into the handle that
currently holds focus appends exactly the provided text to the value of the input; typing into a handle that was never focused in the step is a caller
error `FocusRequiredError`. -/
def typeStrOp (st : InputState) (sel : String) (text : String) :
    Except OpError InputState :=
  if st.focused = some sel then Except.ok ⟨st.focused, st.value ++ text⟩
  else Except.error OpError.focusRequired

/-- Check the focus-before-type discipline along a trace: every `typeStr`
on a selector must be preceded by a `click` on that same selector, with no
intervening click moving focus elsewhere. -/
def checkFocusDiscipline (focused : Option String) : List Act → Bool
  | [] => true
  | Act.click s :: rest => checkFocusDiscipline (some s) rest
  | Act.typeStr s _ :: rest =>
      (focused == some s) && checkFocusDiscipline focused rest
  | _ :: rest => checkFocusDiscipline focused rest

/-! ## Form submission (script fallback vs. user gesture) -/

/-- Modelled from the spec: a user-triggered form submit triggers a
navigation on the page (readiness resets, the navigation epoch advances). -/
def submitFormUserGesture (st : PageState) : PageState :=
  ⟨st.navEpoch + 1, st.readyEpoch⟩

/-- Submitting the form by evaluating the script-based fallback used at
source lines 90-92. -/
def submitFormViaScript (st : PageState) : PageState :=
  step st (Act.evaluate submitScript)

/-! ## Extraction Pipeline -/

/-- The dynamically-typed value a script evaluation produces. -/
inductive JsValue where
  | nullv
  | str (s : String)
  | arr (elems : List JsValue)
deriving Repr

/-- Modelled from the spec: `evaluate<T>(page, script)` is implemented by
the external client library, not under `src/`.  `run` is the protocol-level
script execution, whose failure is untyped (`Unit`); `evaluate` classifies
it as `ScriptFault` before surfacing.  A successful run is decoded to the
requested type `T`; a decode failure surfaces as the distinct kind
`DecodeFault` (the `into_value` step at source lines 99 and 139). -/
def evaluateTyped {T : Type} (run : String → Except Unit JsValue)
    (decode : JsValue → Option T) (script : String) : Except OpError T :=
  match run script with
  | Except.error _ => Except.error OpError.scriptFault
  | Except.ok v =>
      match decode v with
      | none => Except.error OpError.decodeFault
      | some t => Except.ok t

/-- A DOM element, abstracted as the set of selectors it matches plus its
attributes. -/
structure DomElement where
  matchedBy : List String
  attrs : List (String × String)
deriving DecidableEq, Repr

/-- Does the element match the selector? -/
def matchesSel (e : DomElement) (sel : String) : Bool :=
  e.matchedBy.contains sel

/-- `document.querySelectorAll(sel)`: the elements matching `sel`, in
document order (the document is the list of its elements in that order). -/
def querySelectorAll (doc : List DomElement) (sel : String) : List DomElement :=
  doc.filter (fun e => matchesSel e sel)

/-- `element.getAttribute(name)`: the value of the attribute, if present. -/
def getAttribute (e : DomElement) (name : String) : Option String :=
  (e.attrs.find? (fun p => p.1 == name)).map (fun p => p.2)

/-- The selector the books script queries. -/
def bookSel : String := ".product_pod h3 a"

/-- The value produced by the books script of `extract_books` on a
document: the `title` attributes of the matched elements, in document
order (`getAttribute` yields `null` for a missing attribute). -/
def booksScriptResult (doc : List DomElement) : JsValue :=
  JsValue.arr ((querySelectorAll doc bookSel).map (fun e =>
    match getAttribute e "title" with
    | some s => JsValue.str s
    | none => JsValue.nullv))

/-- Decoding one script value into a Rust `String`. -/
def decodeString : JsValue → Option String
  | JsValue.str s => some s
  | _ => none

/-- Decoding each element of a script array into a Rust `String`; the
whole decode fails if any element fails. -/
def decodeList : List JsValue → Option (List String)
  | [] => some []
  | v :: vs =>
      match decodeString v, decodeList vs with
      | some s, some ss => some (s :: ss)
      | _, _ => none

/-- Decoding a script value into a Rust `Vec<String>`. -/
def decodeStringList : JsValue → Option (List String)
  | JsValue.arr xs => decodeList xs
  | _ => none

/-- The extraction performed by `extract_books` (source lines 133-141) on
a given document: evaluate the books script on the page, then convert the
result into `Vec<String>` via `into_value`. -/
def runExtractBooks (doc : List DomElement) : Except OpError (List String) :=
  evaluateTyped (fun _ => Except.ok (booksScriptResult doc)) decodeStringList booksScript

/-! ## Session Manager -/

/-- The live state of a Session: whether the EventBus Consumer is still
running and whether the session has been closed. -/
structure SessionState where
  consumerRunning : Bool
  closed : Bool
deriving DecidableEq, Repr

/-- Modelled from the spec: `close(session)` is implemented by the external
client library, not under `src/`.  It stops the EventBus Consumer and
marks the session closed, invalidating all outstanding pages. -/
def closeSession (_s : SessionState) : SessionState :=
  ⟨false, true⟩

/-- Modelled from the spec: event delivery reaches the consumer only while
the EventBus Consumer is running. -/
def deliverEvent (s : SessionState) (e : Nat) : Option Nat :=
  if s.consumerRunning then some e else none

/-- Modelled from the spec: the events still pending for the background
draining task; after close the stream ends, so the drain loop (source
lines 16-21) exhausts it and terminates. -/
def remainingEvents (s : SessionState) (pending : List Nat) : List Nat :=
  if s.closed then [] else pending

/-- Modelled from the spec: any operation issued against a page of a
closed session fails with `SessionClosedError`. -/
def pageOp (s : SessionState) (_op : Act) : Except OpError Unit :=
  if s.closed then Except.error OpError.sessionClosed else Except.ok ()

/-! ## Effect-level embedding of `take_screenshot` and `main`

The outcome of each fallible external step is supplied by an environment
record; the functions thread the `?`-propagation of the Rust source. -/

/-- The file system, as an association of file names to byte contents. -/
abbrev FsState : Type := List (String × List Nat)

/-- `std::fs::write`: (over-)write a file with the given bytes. -/
def fsWrite (fs : FsState) (name : String) (bytes : List Nat) : FsState :=
  (name, bytes) :: fs

/-- Read the current contents of a file, if the file exists. -/
def fsRead (fs : FsState) (name : String) : Option (List Nat) :=
  (List.find? (fun p => p.1 == name) fs).map (fun p => p.2)

/-- Outcomes of the external steps `take_screenshot` performs. -/
structure ScreenshotEnv where
  newPageRes : Except OpError Unit
  waitNavRes : Except OpError Unit
  screenshotRes : Except OpError (List Nat)
  writeRes : Except OpError Unit

/-- The embedding of `take_screenshot` (source lines 105-122): create the
page, wait for navigation, sleep, capture the screenshot, and only then
write the captured bytes to the named file; each `?` propagates the error
immediately, leaving the file system unchanged unless the write runs. -/
def take_screenshot (env : ScreenshotEnv) (fs : FsState) (filename : String) :
    Except OpError Unit × FsState :=
  match env.newPageRes with
  | Except.error e => (Except.error e, fs)
  | Except.ok _ =>
      match env.waitNavRes with
      | Except.error e => (Except.error e, fs)
      | Except.ok _ =>
          match env.screenshotRes with
          | Except.error e => (Except.error e, fs)
          | Except.ok bytes =>
              match env.writeRes with
              | Except.error e => (Except.error e, fs)
              | Except.ok _ => (Except.ok (), fsWrite fs filename bytes)

/-- The externally visible steps `main` can execute, in source order. -/
inductive MainStep where
  | spawnHandler
  | wikipediaSearch
  | takeScreenshot
  | extractBooks
  | browserClose
  | handleAwait
deriving DecidableEq, Repr

/-- Outcomes of the fallible calls `main` performs. -/
structure MainEnv where
  createBrowserRes : Except OpError Unit
  wikipediaRes : Except OpError String
  screenshotRes : Except OpError Unit
  booksRes : Except OpError (List String)
  closeRes : Except OpError Unit

/-- The embedding of `main` (source lines 9-48): spawn the event handler,
run the three examples in order, then close the browser and await the
handler task; every `?` propagates the error immediately, skipping all
later steps.  The second component records the steps executed (a failing
call is still recorded as executed). -/
def mainRun (env : MainEnv) : Except OpError Unit × List MainStep :=
  match env.createBrowserRes with
  | Except.error e => (Except.error e, [])
  | Except.ok _ =>
      match env.wikipediaRes with
      | Except.error e =>
          (Except.error e, [MainStep.spawnHandler, MainStep.wikipediaSearch])
      | Except.ok _ =>
          match env.screenshotRes with
          | Except.error e =>
              (Except.error e,
               [MainStep.spawnHandler, MainStep.wikipediaSearch,
                MainStep.takeScreenshot])
          | Except.ok _ =>
              match env.booksRes with
              | Except.error e =>
                  (Except.error e,
                   [MainStep.spawnHandler, MainStep.wikipediaSearch,
                    MainStep.takeScreenshot, MainStep.extractBooks])
              | Except.ok _ =>
                  match env.closeRes with
                  | Except.error e =>
                      (Except.error e,
                       [MainStep.spawnHandler, MainStep.wikipediaSearch,
                        MainStep.takeScreenshot, MainStep.extractBooks,
                        MainStep.browserClose])
                  | Except.ok _ =>
                      (Except.ok (),
                       [MainStep.spawnHandler, MainStep.wikipediaSearch,
                        MainStep.takeScreenshot, MainStep.extractBooks,
                        MainStep.browserClose, MainStep.handleAwait])

/-! ## Suspension layer (spec section 5)

Every suspending foreground operation (navigate, find, click, type,
evaluate, capture) accepts a timeout and abandons waiting on timeout. -/

/-- Modelled from the spec: whether the completion signal of a suspending
operation, arriving at time `arrival` (`none` if it never arrives), arrives
within `timeout`. -/
def arrivesWithin (arrival : Option Nat) (timeout : Nat) : Bool :=
  match arrival with
  | some t => decide (t ≤ timeout)
  | none => false

/-- Modelled from the spec (section 5): the suspension layer is implemented
by the external client library, not under `src/`.  Every suspending
operation accepts a `timeout`; when the completion signal does not arrive
within `timeout` the wait is abandoned and the classified error `onTimeout`
is returned, otherwise the outcome of the operation itself is surfaced.
The function is total: it never blocks. -/
def suspendWithTimeout {A : Type} (arrival : Option Nat) (timeout : Nat)
    (onTimeout : OpError) (outcome : Except OpError A) : Except OpError A :=
  if arrivesWithin arrival timeout then outcome else Except.error onTimeout

/-- Modelled from the spec: `findElement` as a suspending operation
accepting a timeout. -/
def findElementWithTimeout {H : Type} (resolve : Nat → Option H) (policy : RetryPolicy)
    (arrival : Option Nat) (timeout : Nat) (onTimeout : OpError) : Except OpError H :=
  suspendWithTimeout arrival timeout onTimeout (findElement resolve policy).1

/-- Modelled from the spec: `click` as a suspending operation accepting a
timeout. -/
def clickWithTimeout (st : InputState) (sel : String) (arrival : Option Nat)
    (timeout : Nat) (onTimeout : OpError) : Except OpError InputState :=
  suspendWithTimeout arrival timeout onTimeout (Except.ok (clickFocus st sel))

/-- Modelled from the spec: `type` as a suspending operation accepting a
timeout. -/
def typeStrWithTimeout (st : InputState) (sel text : String) (arrival : Option Nat)
    (timeout : Nat) (onTimeout : OpError) : Except OpError InputState :=
  suspendWithTimeout arrival timeout onTimeout (typeStrOp st sel text)

/-- Modelled from the spec: `evaluate` as a suspending operation accepting
a timeout. -/
def evaluateWithTimeout {T : Type} (run : String → Except Unit JsValue)
    (decode : JsValue → Option T) (script : String) (arrival : Option Nat)
    (timeout : Nat) (onTimeout : OpError) : Except OpError T :=
  suspendWithTimeout arrival timeout onTimeout (evaluateTyped run decode script)

/-- Modelled from the spec: `capture` as a suspending operation accepting a
timeout, `bytes` being the captured artifact when the capture completes. -/
def captureWithTimeout (bytes : List Nat) (arrival : Option Nat) (timeout : Nat)
    (onTimeout : OpError) : Except OpError (List Nat) :=
  suspendWithTimeout arrival timeout onTimeout (Except.ok bytes)

end Scraper

namespace Scraper

/-- Claim C1: in every example function, every interaction
(`find_element`, `click`, `type_str`), extraction (`evaluate`) and capture
(`screenshot`) call on a page is issued only after a completed
`wait_for_navigation` for the latest navigation of that page, including the
navigation triggered by the script-based form submit. -/
theorem readiness_invariant_holds (searchTerm url filename : String) :
    checkReady PageState.init (wikipediaTrace searchTerm) = true ∧
    checkReady PageState.init (screenshotTrace url filename) = true ∧
    checkReady PageState.init extractBooksTrace = true := by
  refine ⟨?_, ?_, ?_⟩ <;> rfl

/-- Helper: the filter retaining signals within the timeout is empty iff
every signal arrives strictly after the timeout. -/
theorem filterLe_nil_iff (signals : List Nat) (timeout : Nat) :
    signals.filter (fun t => decide (t ≤ timeout)) = [] ↔ ∀ t ∈ signals, timeout < t := by
  rw [List.filter_eq_nil_iff]
  constructor
  · intro h t ht
    have := h t ht
    simpa [Nat.not_le] using this
  · intro h t ht
    simpa [Nat.not_le] using h t ht

/-- Helper: `navigate` with a timeout never blocks: it returns a
successful result exactly when some navigation-complete signal arrives
within the timeout, and returns `NavigationTimeout` exactly when no
signal arrives within the timeout. -/
theorem navigate_timeout_classified (st : PageState) (signals : List Nat) (timeout : Nat) :
    ((navigate st signals timeout).1 = Except.ok () ↔ ∃ t ∈ signals, t ≤ timeout) ∧
    ((navigate st signals timeout).1 = Except.error OpError.navigationTimeout ↔
      ∀ t ∈ signals, timeout < t) := by
  rcases hf : signals.filter (fun t => decide (t ≤ timeout)) with _ | ⟨t, rest⟩
  · have hall : ∀ t ∈ signals, timeout < t := (filterLe_nil_iff signals timeout).mp hf
    have h1 : (navigate st signals timeout).1 = Except.error OpError.navigationTimeout := by
      simp [navigate, waitCompleteWithin, hf]
    rw [h1]
    constructor
    · constructor
      · intro h
        exact absurd h (by simp)
      · rintro ⟨t, ht, hle⟩
        exact absurd hle (Nat.not_le.mpr (hall t ht))
    · exact ⟨fun _ => hall, fun _ => rfl⟩
  · have htmem : t ∈ signals ∧ t ≤ timeout := by
      have hmem : t ∈ signals.filter (fun t => decide (t ≤ timeout)) := by
        rw [hf]
        exact List.mem_cons_self t rest
      have := List.mem_filter.mp hmem
      exact ⟨this.1, by simpa using this.2⟩
    have h1 : (navigate st signals timeout).1 = Except.ok () := by
      simp [navigate, waitCompleteWithin, hf]
    rw [h1]
    constructor
    · constructor
      · intro _
        exact ⟨t, htmem.1, htmem.2⟩
      · intro _
        rfl
    · constructor
      · intro h
        exact absurd h (by simp)
      · intro hall
        exact absurd (hall t htmem.1) (Nat.not_lt.mpr htmem.2)

/-- Claim C2: `navigate` with a timeout returns `NavigationTimeout`
exactly when no navigation-complete signal arrives within the timeout and
succeeds exactly when one does (never blocking), and more generally every
suspending operation — find, click, type, evaluate, capture — accepts a
timeout and, whenever its completion signal does not arrive within that
timeout (which is exactly when `arrivesWithin` is false), abandons waiting
and returns an error. -/
theorem suspending_ops_timeout {H T : Type} (st : PageState) (signals : List Nat)
    (timeout : Nat) (resolve : Nat → Option H) (policy : RetryPolicy) (ist : InputState)
    (sel text : String) (run : String → Except Unit JsValue) (decode : JsValue → Option T)
    (script : String) (bytes : List Nat) (arrival : Option Nat) (onTimeout : OpError) :
    ((navigate st signals timeout).1 = Except.ok () ↔ ∃ t ∈ signals, t ≤ timeout) ∧
    ((navigate st signals timeout).1 = Except.error OpError.navigationTimeout ↔
      ∀ t ∈ signals, timeout < t) ∧
    (arrivesWithin arrival timeout = false →
      findElementWithTimeout resolve policy arrival timeout onTimeout =
          Except.error onTimeout ∧
      clickWithTimeout ist sel arrival timeout onTimeout = Except.error onTimeout ∧
      typeStrWithTimeout ist sel text arrival timeout onTimeout = Except.error onTimeout ∧
      evaluateWithTimeout run decode script arrival timeout onTimeout =
          Except.error onTimeout ∧
      captureWithTimeout bytes arrival timeout onTimeout = Except.error onTimeout) ∧
    (arrivesWithin arrival timeout = false ↔ ∀ t, arrival = some t → timeout < t) := by
  refine ⟨(navigate_timeout_classified st signals timeout).1,
          (navigate_timeout_classified st signals timeout).2, ?_, ?_⟩
  · intro hna
    refine ⟨?_, ?_, ?_, ?_, ?_⟩ <;>
      simp [findElementWithTimeout, clickWithTimeout, typeStrWithTimeout,
        evaluateWithTimeout, captureWithTimeout, suspendWithTimeout, hna]
  · cases arrival with
    | none => simp [arrivesWithin]
    | some t => simp [arrivesWithin, Nat.not_le]

/-- Witness for C2: with the navigation signal arriving at time 50 against
a timeout of 10, `navigate` fails with `NavigationTimeout`; a find whose
completion arrives at time 50 against a timeout of 10 returns its timeout
error; a capture whose completion never arrives returns its timeout
error. -/
theorem suspending_ops_timeout_witness :
    (navigate PageState.init [50] 10).1 = Except.error OpError.navigationTimeout ∧
    findElementWithTimeout (fun _ => (none : Option Nat)) ⟨3, 100⟩ (some 50) 10
        OpError.elementNotFound = Except.error OpError.elementNotFound ∧
    captureWithTimeout [7] none 10 OpError.capture = Except.error OpError.capture :=
  ⟨(suspending_ops_timeout PageState.init [50] 10 (fun _ => (none : Option Nat)) ⟨3, 100⟩
      ⟨none, ""⟩ "s" "t" (fun _ => Except.ok JsValue.nullv) decodeString "x" [7] (some 50)
      OpError.elementNotFound).2.1.mpr (by decide),
   ((suspending_ops_timeout PageState.init [50] 10 (fun _ => (none : Option Nat)) ⟨3, 100⟩
      ⟨none, ""⟩ "s" "t" (fun _ => Except.ok JsValue.nullv) decodeString "x" [7] (some 50)
      OpError.elementNotFound).2.2.1 (by decide)).1,
   ((suspending_ops_timeout PageState.init [50] 10 (fun _ => (none : Option Nat)) ⟨3, 100⟩
      ⟨none, ""⟩ "s" "t" (fun _ => Except.ok JsValue.nullv) decodeString "x" [7] none
      OpError.capture).2.2.1 (by decide)).2.2.2.2⟩

/-- Claim C7: submitting the form by evaluating the script fallback is
equivalent in effect on the page to a user-triggered submit (both trigger
a navigation), and in the `wikipedia_search` trace the submit leaves a
pending navigation (epoch 2, not yet ready) which the subsequent
`wait_for_navigation` completes, so the final title evaluation observes
the post-submit page. -/
theorem script_submit_triggers_navigation (searchTerm : String) :
    (∀ st : PageState, submitFormViaScript st = submitFormUserGesture st) ∧
    runTrace PageState.init ((wikipediaTrace searchTerm).take 10) = ⟨2, 1⟩ ∧
    runTrace PageState.init ((wikipediaTrace searchTerm).take 11) = ⟨2, 2⟩ := by
  refine ⟨?_, rfl, rfl⟩
  intro st
  have h : navTriggering submitScript = true := rfl
  simp [submitFormViaScript, submitFormUserGesture, step, h]

/-- Claim C8: closing a session is idempotent, stops the EventBus
Consumer (no further events are delivered and the background draining
stream of the draining task ends, so it terminates), and invalidates all pages: any
subsequent page operation fails with `SessionClosedError`. -/
theorem close_session_stops_events_and_invalidates
    (s : SessionState) (evs : List Nat) (e : Nat) (op : Act) :
    closeSession (closeSession s) = closeSession s ∧
    (closeSession s).consumerRunning = false ∧
    deliverEvent (closeSession s) e = none ∧
    remainingEvents (closeSession s) evs = [] ∧
    pageOp (closeSession s) op = Except.error OpError.sessionClosed :=
  ⟨rfl, rfl, rfl, rfl, rfl⟩

/-- Claim C3: `type` on a handle that was never focused in the step fails
with `FocusRequiredError`; after an explicit focus action (a click on that
handle) it succeeds and the resulting input value equals the provided text
with no leading character dropped; and the `wikipedia_search` trace obeys
the focus-before-type discipline (the input is clicked before
`type_str`). -/
theorem type_requires_focus (sel text searchTerm : String) (st : InputState) :
    (st.focused ≠ some sel → typeStrOp st sel text = Except.error OpError.focusRequired) ∧
    typeStrOp (clickFocus st sel) sel text = Except.ok ⟨some sel, st.value ++ text⟩ ∧
    (st.value = "" → typeStrOp (clickFocus st sel) sel text = Except.ok ⟨some sel, text⟩) ∧
    checkFocusDiscipline none (wikipediaTrace searchTerm) = true := by
  refine ⟨?_, ?_, ?_, rfl⟩
  · intro h
    simp [typeStrOp, h]
  · simp [typeStrOp, clickFocus]
  · intro h
    rcases text with ⟨tdata⟩
    simp [typeStrOp, clickFocus, h]

/-- Witness for C3: typing into a never-focused input fails with
`FocusRequiredError`, while clicking the input first makes the same typing
succeed with exactly the provided text as the value. -/
theorem type_requires_focus_witness :
    typeStrOp ⟨none, ""⟩ "s" "rust" = Except.error OpError.focusRequired ∧
    typeStrOp (clickFocus ⟨none, ""⟩ "s") "s" "rust" = Except.ok ⟨some "s", "rust"⟩ :=
  ⟨(type_requires_focus "s" "rust" "x" ⟨none, ""⟩).1 (by simp),
   (type_requires_focus "s" "rust" "x" ⟨none, ""⟩).2.2.1 rfl⟩

/-- Claim C4: `evaluate` returns either a successful typed result or one
of the two distinct classified failure kinds: an untyped protocol-level
script failure is classified as `ScriptFault`, a conversion failure of the
result of the script into the requested type is `DecodeFault`, and the two
kinds are distinct. -/
theorem evaluate_classifies_failures {T : Type} (run : String → Except Unit JsValue)
    (decode : JsValue → Option T) (script : String) :
    ((∃ t, evaluateTyped run decode script = Except.ok t) ∨
      evaluateTyped run decode script = Except.error OpError.scriptFault ∨
      evaluateTyped run decode script = Except.error OpError.decodeFault) ∧
    (∀ e, run script = Except.error e →
      evaluateTyped run decode script = Except.error OpError.scriptFault) ∧
    (∀ v, run script = Except.ok v → decode v = none →
      evaluateTyped run decode script = Except.error OpError.decodeFault) ∧
    (∀ v t, run script = Except.ok v → decode v = some t →
      evaluateTyped run decode script = Except.ok t) ∧
    OpError.scriptFault ≠ OpError.decodeFault := by
  refine ⟨?_, ?_, ?_, ?_, by decide⟩
  · rcases hr : run script with e | v
    · right; left
      simp [evaluateTyped, hr]
    · rcases hd : decode v with _ | t
      · right; right
        simp [evaluateTyped, hr, hd]
      · left
        exact ⟨t, by simp [evaluateTyped, hr, hd]⟩
  · intro e he
    simp [evaluateTyped, he]
  · intro v hv hd
    simp [evaluateTyped, hv, hd]
  · intro v t hv hd
    simp [evaluateTyped, hv, hd]

/-- Witness for C4: a script returning `null` that is decoded as a
`String` fails with `DecodeFault`. -/
theorem evaluate_classifies_failures_witness :
    evaluateTyped (fun _ => Except.ok JsValue.nullv) decodeString "document.title" =
      Except.error OpError.decodeFault :=
  (evaluate_classifies_failures (fun _ => Except.ok JsValue.nullv) decodeString
    "document.title").2.2.1 JsValue.nullv rfl rfl

/-- Helper: when every matched element carries a `title` attribute, the
array built by the books script decodes to exactly those titles, in order. -/
theorem decodeList_titles :
    ∀ (l : List DomElement), (∀ e ∈ l, (getAttribute e "title").isSome = true) →
      decodeList (l.map (fun e =>
        match getAttribute e "title" with
        | some s => JsValue.str s
        | none => JsValue.nullv)) =
        some (l.map (fun e => (getAttribute e "title").getD "")) := by
  intro l
  induction l with
  | nil =>
      intro _
      rfl
  | cons a l ih =>
      intro hall
      obtain ⟨s, hs⟩ := Option.isSome_iff_exists.mp (hall a (List.mem_cons_self a l))
      have hrest := ih (fun e he => hall e (List.mem_cons_of_mem a he))
      simp [decodeList, hs, decodeString, hrest]

/-- Claim C5: the books extraction query returns the matched elements in
document order (the result of `querySelectorAll` is a sublist of the
document consisting exactly of the matching elements), its decoded values
are the `title` attributes of the matched elements in that order, and a selector
matching zero elements yields the empty list as a success, never an
error. -/
theorem extract_preserves_order_and_empty (doc : List DomElement) :
    (querySelectorAll doc bookSel).Sublist doc ∧
    (∀ e ∈ querySelectorAll doc bookSel, matchesSel e bookSel = true) ∧
    (∀ e ∈ doc, matchesSel e bookSel = true → e ∈ querySelectorAll doc bookSel) ∧
    ((∀ e ∈ querySelectorAll doc bookSel, (getAttribute e "title").isSome = true) →
      runExtractBooks doc =
        Except.ok ((querySelectorAll doc bookSel).map
          (fun e => (getAttribute e "title").getD ""))) ∧
    ((∀ e ∈ doc, matchesSel e bookSel = false) → runExtractBooks doc = Except.ok []) := by
  refine ⟨List.filter_sublist doc, ?_, ?_, ?_, ?_⟩
  · intro e he
    exact (List.mem_filter.mp he).2
  · intro e he hm
    exact List.mem_filter.mpr ⟨he, hm⟩
  · intro hall
    have hdec := decodeList_titles (querySelectorAll doc bookSel) hall
    simp [runExtractBooks, evaluateTyped, booksScriptResult, decodeStringList, hdec]
  · intro hnone
    have hq : querySelectorAll doc bookSel = [] := by
      rw [querySelectorAll, List.filter_eq_nil_iff]
      intro e he
      simp [hnone e he]
    simp [runExtractBooks, evaluateTyped, booksScriptResult, decodeStringList, hq, decodeList]

/-- Witness for C5: on the empty document the books extraction succeeds
with the empty list. -/
theorem extract_preserves_order_and_empty_witness :
    runExtractBooks [] = Except.ok ([] : List String) :=
  (extract_preserves_order_and_empty []).2.2.2.2 (by intro e he; cases he)

/-- Helper: the retry loop fails with `ElementNotFound` exactly when every
one of its `n` attempts (starting at attempt `i`) resolves nothing. -/
theorem findElementFrom_error_iff {H : Type} (resolve : Nat → Option H) (backoff : Nat) :
    ∀ (n i elapsed : Nat),
      (findElementFrom resolve backoff n i elapsed).1 =
          Except.error OpError.elementNotFound ↔
        ∀ k < n, resolve (i + k) = none := by
  intro n
  induction n with
  | zero =>
      intro i elapsed
      exact ⟨fun _ k hk => absurd hk (Nat.not_lt_zero k), fun _ => rfl⟩
  | succ m ih =>
      intro i elapsed
      cases hr : resolve i with
      | some h =>
          have hok : findElementFrom resolve backoff (m + 1) i elapsed = (Except.ok h, elapsed) := by
            simp [findElementFrom, hr]
          rw [hok]
          constructor
          · intro hcontra
            simp at hcontra
          · intro hall
            have h0 := hall 0 (Nat.succ_pos m)
            rw [Nat.add_zero] at h0
            exact absurd h0 (by simp [hr])
      | none =>
          have heq : findElementFrom resolve backoff (m + 1) i elapsed =
              findElementFrom resolve backoff m (i + 1) (elapsed + backoff) := by
            simp [findElementFrom, hr]
          rw [heq, ih (i + 1) (elapsed + backoff)]
          constructor
          · intro hall k hk
            cases k with
            | zero =>
                simpa using hr
            | succ k' =>
                have hk' : k' < m := by omega
                have h2 := hall k' hk'
                have harith : i + (k' + 1) = i + 1 + k' := by omega
                rw [harith]
                exact h2
          · intro hall k hk
            have h2 := hall (k + 1) (by omega)
            have harith : i + 1 + k = i + (k + 1) := by omega
            rw [harith]
            exact h2

/-- Helper: when no attempt ever resolves, the retry loop sleeps one
backoff delay per unsuccessful attempt, for a total of `n * backoff`. -/
theorem findElementFrom_elapsed_all_none {H : Type} (resolve : Nat → Option H)
    (backoff : Nat) (hall : ∀ k, resolve k = none) :
    ∀ (n i elapsed : Nat),
      (findElementFrom resolve backoff n i elapsed).2 = elapsed + n * backoff := by
  intro n
  induction n with
  | zero =>
      intro i elapsed
      simp [findElementFrom]
  | succ m ih =>
      intro i elapsed
      have heq : findElementFrom resolve backoff (m + 1) i elapsed =
          findElementFrom resolve backoff m (i + 1) (elapsed + backoff) := by
        simp [findElementFrom, hall i]
      rw [heq, ih (i + 1) (elapsed + backoff)]
      ring

/-- Claim C6: `findElement` fails with `ElementNotFound` exactly when all
`maxAttempts` resolution attempts fail, so with `maxAttempts` greater than
one it does not fail after a single unsuccessful attempt (a success on the
second attempt is returned); when it does fail it has slept one backoff
delay per unsuccessful attempt. -/
theorem findElement_retries_before_failing {H : Type} (resolve : Nat → Option H)
    (policy : RetryPolicy) :
    ((findElement resolve policy).1 = Except.error OpError.elementNotFound ↔
      ∀ i < policy.maxAttempts, resolve i = none) ∧
    (∀ h, 2 ≤ policy.maxAttempts → resolve 0 = none → resolve 1 = some h →
      (findElement resolve policy).1 = Except.ok h) ∧
    ((∀ i, resolve i = none) →
      (findElement resolve policy).2 = policy.maxAttempts * policy.backoffMs) := by
  refine ⟨?_, ?_, ?_⟩
  · have h := findElementFrom_error_iff resolve policy.backoffMs policy.maxAttempts 0 0
    simpa [findElement] using h
  · intro h h2 h0 h1
    obtain ⟨m, hm⟩ : ∃ m, policy.maxAttempts = m + 2 := ⟨policy.maxAttempts - 2, by omega⟩
    simp [findElement, hm, findElementFrom, h0, h1]
  · intro hnone
    have h := findElementFrom_elapsed_all_none resolve policy.backoffMs hnone
      policy.maxAttempts 0 0
    simpa [findElement] using h

/-- Witness for C6: with a resolver that fails on the first attempt and
succeeds on the second, a two-attempt policy returns the handle instead of
failing after the first attempt. -/
theorem findElement_retries_before_failing_witness :
    (findElement (fun i => if i = 1 then some 42 else none) ⟨2, 100⟩).1 = Except.ok 42 :=
  (findElement_retries_before_failing (fun i => if i = 1 then some 42 else none)
    ⟨2, 100⟩).2.1 42 (by decide) rfl rfl

/-- Claim C9: in `take_screenshot` the file is written only after the
screenshot command has returned successfully: if the capture step fails
the function returns that error with the file system unchanged, and if
capture and write both succeed the contents of the named file are exactly the
captured byte buffer. -/
theorem screenshot_written_only_after_capture (env : ScreenshotEnv) (fs : FsState)
    (filename : String) :
    (∀ e, env.newPageRes = Except.ok () → env.waitNavRes = Except.ok () →
      env.screenshotRes = Except.error e →
      take_screenshot env fs filename = (Except.error e, fs)) ∧
    (∀ bytes, env.newPageRes = Except.ok () → env.waitNavRes = Except.ok () →
      env.screenshotRes = Except.ok bytes → env.writeRes = Except.ok () →
      take_screenshot env fs filename = (Except.ok (), fsWrite fs filename bytes) ∧
      fsRead (take_screenshot env fs filename).2 filename = some bytes) := by
  constructor
  · intro e h1 h2 h3
    simp [take_screenshot, h1, h2, h3]
  · intro bytes h1 h2 h3 h4
    have hts : take_screenshot env fs filename = (Except.ok (), fsWrite fs filename bytes) := by
      simp [take_screenshot, h1, h2, h3, h4]
    refine ⟨hts, ?_⟩
    rw [hts]
    simp [fsRead, fsWrite]

/-- Witness for C9: a successful capture of bytes `[7, 7]` writes exactly
those bytes to the named file. -/
theorem screenshot_written_only_after_capture_witness :
    take_screenshot ⟨Except.ok (), Except.ok (), Except.ok [7, 7], Except.ok ()⟩ []
        "rust-homepage.png" =
      (Except.ok (), [("rust-homepage.png", [7, 7])]) :=
  ((screenshot_written_only_after_capture
      ⟨Except.ok (), Except.ok (), Except.ok [7, 7], Except.ok ()⟩ [] "rust-homepage.png").2
    [7, 7] rfl rfl rfl rfl).1

/-- Claim C10: `main` runs the three examples in the fixed order
`wikipedia_search`, `take_screenshot`, `extract_books`; an error from any
of them propagates immediately, skipping every later example as well as
`browser.close()` and the await of the event-handler task, and the cleanup
steps run exactly when all three examples succeed. -/
theorem mainRun_order_and_cleanup (env : MainEnv) :
    (∀ e, env.createBrowserRes = Except.ok () → env.wikipediaRes = Except.error e →
      mainRun env = (Except.error e, [MainStep.spawnHandler, MainStep.wikipediaSearch]) ∧
      MainStep.takeScreenshot ∉ (mainRun env).2 ∧ MainStep.extractBooks ∉ (mainRun env).2 ∧
      MainStep.browserClose ∉ (mainRun env).2 ∧ MainStep.handleAwait ∉ (mainRun env).2) ∧
    (∀ e s, env.createBrowserRes = Except.ok () → env.wikipediaRes = Except.ok s →
      env.screenshotRes = Except.error e →
      mainRun env = (Except.error e,
        [MainStep.spawnHandler, MainStep.wikipediaSearch, MainStep.takeScreenshot]) ∧
      MainStep.extractBooks ∉ (mainRun env).2 ∧
      MainStep.browserClose ∉ (mainRun env).2 ∧ MainStep.handleAwait ∉ (mainRun env).2) ∧
    (∀ e s, env.createBrowserRes = Except.ok () → env.wikipediaRes = Except.ok s →
      env.screenshotRes = Except.ok () → env.booksRes = Except.error e →
      mainRun env = (Except.error e,
        [MainStep.spawnHandler, MainStep.wikipediaSearch, MainStep.takeScreenshot,
         MainStep.extractBooks]) ∧
      MainStep.browserClose ∉ (mainRun env).2 ∧ MainStep.handleAwait ∉ (mainRun env).2) ∧
    (∀ s bs, env.createBrowserRes = Except.ok () → env.wikipediaRes = Except.ok s →
      env.screenshotRes = Except.ok () → env.booksRes = Except.ok bs →
      env.closeRes = Except.ok () →
      mainRun env = (Except.ok (),
        [MainStep.spawnHandler, MainStep.wikipediaSearch, MainStep.takeScreenshot,
         MainStep.extractBooks, MainStep.browserClose, MainStep.handleAwait])) := by
  refine ⟨?_, ?_, ?_, ?_⟩
  · intro e h1 h2
    have hm : mainRun env = (Except.error e,
        [MainStep.spawnHandler, MainStep.wikipediaSearch]) := by
      simp [mainRun, h1, h2]
    refine ⟨hm, ?_, ?_, ?_, ?_⟩ <;> rw [hm] <;> simp
  · intro e s h1 h2 h3
    have hm : mainRun env = (Except.error e,
        [MainStep.spawnHandler, MainStep.wikipediaSearch, MainStep.takeScreenshot]) := by
      simp [mainRun, h1, h2, h3]
    refine ⟨hm, ?_, ?_, ?_⟩ <;> rw [hm] <;> simp
  · intro e s h1 h2 h3 h4
    have hm : mainRun env = (Except.error e,
        [MainStep.spawnHandler, MainStep.wikipediaSearch, MainStep.takeScreenshot,
         MainStep.extractBooks]) := by
      simp [mainRun, h1, h2, h3, h4]
    refine ⟨hm, ?_, ?_⟩ <;> rw [hm] <;> simp
  · intro s bs h1 h2 h3 h4 h5
    simp [mainRun, h1, h2, h3, h4, h5]

/-- Witness for C10: when every call succeeds, `main` executes all six
steps in source order and returns success. -/
theorem mainRun_order_and_cleanup_witness :
    mainRun ⟨Except.ok (), Except.ok "Rust (programming language)", Except.ok (),
        Except.ok ["A Book"], Except.ok ()⟩ =
      (Except.ok (),
       [MainStep.spawnHandler, MainStep.wikipediaSearch, MainStep.takeScreenshot,
        MainStep.extractBooks, MainStep.browserClose, MainStep.handleAwait]) :=
  (mainRun_order_and_cleanup ⟨Except.ok (), Except.ok "Rust (programming language)",
      Except.ok (), Except.ok ["A Book"], Except.ok ()⟩).2.2.2
    "Rust (programming language)" ["A Book"] rfl rfl rfl rfl rfl

end Scraper
